import Mathlib

/-!
Verification of the rustydag chain core: mining, block/chain validation,
fork choice and gossip dispatch (src/chain/block.rs, src/chain/node.rs,
src/chain/p2p.rs), shallowly embedded in Lean.

Conventions of the embedding:
* Rust u64 fields become Nat, i64 becomes Int.
* Paths that panic in Rust (a failed expect, an explicit panic) are
  modelled as Option results, with none meaning "the process aborts".
* The unbounded mining loop is modelled with explicit fuel; a some result
  means the Rust loop returns.
-/

set_option maxRecDepth 100000

namespace RustyDag

/-! ## SHA-256 (the sha2 crate's Sha256, modelled bit-for-bit on Nat) -/

/-- 2^32 - 1, mask for 32-bit words. -/
def wmask : Nat := 4294967295

/-- Right rotation of a 32-bit word. -/
def rotr (n x : Nat) : Nat := ((x >>> n) ||| (x <<< (32 - n))) &&& wmask

/-- SHA-256 round constants. -/
def kConst : List Nat :=
  [1116352408, 1899447441, 3049323471, 3921009573, 961987163,
   1508970993, 2453635748, 2870763221, 3624381080, 310598401,
   607225278, 1426881987, 1925078388, 2162078206, 2614888103,
   3248222580, 3835390401, 4022224774, 264347078, 604807628,
   770255983, 1249150122, 1555081692, 1996064986, 2554220882,
   2821834349, 2952996808, 3210313671, 3336571891, 3584528711,
   113926993, 338241895, 666307205, 773529912, 1294757372,
   1396182291, 1695183700, 1986661051, 2177026350, 2456956037,
   2730485921, 2820302411, 3259730800, 3345764771, 3516065817,
   3600352804, 4094571909, 275423344, 430227734, 506948616,
   659060556, 883997877, 958139571, 1322822218, 1537002063,
   1747873779, 1955562222, 2024104815, 2227730452, 2361852424,
   2428436474, 2756734187, 3204031479, 3329325298]

/-- SHA-256 initial hash value. -/
def initH : List Nat :=
  [1779033703, 3144134277, 1013904242, 2773480762, 1359893119,
   2600822924, 528734635, 1541459225]

/-- Big-endian byte rendering of x on n bytes. -/
def beBytes : Nat → Nat → List Nat
  | 0, _ => []
  | n + 1, x => beBytes n (x / 256) ++ [x % 256]

/-- Group bytes into big-endian 32-bit words. -/
def toWords : List Nat → List Nat
  | a :: b :: c :: d :: rest => (((a * 256 + b) * 256 + c) * 256 + d) :: toWords rest
  | _ => []

/-- Split a byte list into 64-byte chunks (fuelled so the kernel can reduce it). -/
def chunksGo : Nat → List Nat → List (List Nat)
  | 0, _ => []
  | _, [] => []
  | fuel + 1, l => l.take 64 :: chunksGo fuel (l.drop 64)

def chunks64 (l : List Nat) : List (List Nat) := chunksGo l.length l

/-- One step of the message-schedule extension: append word w[i] computed
from w[i-16], w[i-15], w[i-7], w[i-2]. -/
def scheduleStep (w : List Nat) : List Nat :=
  let i := w.length
  let w15 := w.getD (i - 15) 0
  let w2 := w.getD (i - 2) 0
  let s0 := (rotr 7 w15) ^^^ (rotr 18 w15) ^^^ (w15 >>> 3)
  let s1 := (rotr 17 w2) ^^^ (rotr 19 w2) ^^^ (w2 >>> 10)
  w ++ [(w.getD (i - 16) 0 + s0 + w.getD (i - 7) 0 + s1) &&& wmask]

def extendW : Nat → List Nat → List Nat
  | 0, w => w
  | n + 1, w => extendW n (scheduleStep w)

/-- The eight 32-bit working variables of the compression function. -/
structure Words8 where
  a : Nat
  b : Nat
  c : Nat
  d : Nat
  e : Nat
  f : Nat
  g : Nat
  hh : Nat

/-- One round of the SHA-256 compression function. -/
def compressStep (s : Words8) (kw : Nat × Nat) : Words8 :=
  let bigS1 := (rotr 6 s.e) ^^^ (rotr 11 s.e) ^^^ (rotr 25 s.e)
  let ch := (s.e &&& s.f) ^^^ ((s.e ^^^ wmask) &&& s.g)
  let temp1 := (s.hh + bigS1 + ch + kw.1 + kw.2) &&& wmask
  let bigS0 := (rotr 2 s.a) ^^^ (rotr 13 s.a) ^^^ (rotr 22 s.a)
  let maj := (s.a &&& s.b) ^^^ (s.a &&& s.c) ^^^ (s.b &&& s.c)
  let temp2 := (bigS0 + maj) &&& wmask
  ⟨(temp1 + temp2) &&& wmask, s.a, s.b, s.c, (s.d + temp1) &&& wmask, s.e, s.f, s.g⟩

/-- Compress one 64-byte block (given as bytes) into the running hash value. -/
def compressBlock (hv : List Nat) (block : List Nat) : List Nat :=
  let w := extendW 48 (toWords block)
  let st0 : Words8 :=
    ⟨hv.getD 0 0, hv.getD 1 0, hv.getD 2 0, hv.getD 3 0,
     hv.getD 4 0, hv.getD 5 0, hv.getD 6 0, hv.getD 7 0⟩
  let fin := (kConst.zip w).foldl compressStep st0
  [(hv.getD 0 0 + fin.a) &&& wmask, (hv.getD 1 0 + fin.b) &&& wmask,
   (hv.getD 2 0 + fin.c) &&& wmask, (hv.getD 3 0 + fin.d) &&& wmask,
   (hv.getD 4 0 + fin.e) &&& wmask, (hv.getD 5 0 + fin.f) &&& wmask,
   (hv.getD 6 0 + fin.g) &&& wmask, (hv.getD 7 0 + fin.hh) &&& wmask]

/-- SHA-256 padding: 0x80, zeros, then the bit length on 8 big-endian bytes. -/
def shaPad (msg : List Nat) : List Nat :=
  let len := msg.length
  let z := (64 - ((len + 9) % 64)) % 64
  msg ++ [128] ++ List.replicate z 0 ++ beBytes 8 (8 * len)

/-- SHA-256 of a byte sequence, as a 32-byte digest. -/
def sha256 (msg : List Nat) : List Nat :=
  let hv := (chunks64 (shaPad msg)).foldl compressBlock initH
  hv.foldr (fun w acc => beBytes 4 w ++ acc) []

/-! ## UTF-8, hex and JSON string helpers used by the embedded code -/

/-- UTF-8 encoding of one scalar value. -/
def utf8Char (c : Char) : List Nat :=
  let n := c.toNat
  if n < 128 then [n]
  else if n < 2048 then [192 + n / 64, 128 + n % 64]
  else if n < 65536 then [224 + n / 4096, 128 + (n / 64) % 64, 128 + n % 64]
  else [240 + n / 262144, 128 + (n / 4096) % 64, 128 + (n / 64) % 64, 128 + n % 64]

/-- UTF-8 bytes of a string (Rust str::as_bytes). -/
def utf8Bytes (s : String) : List Nat := (s.toList.map utf8Char).flatten

/-- Lowercase hex digit for n < 16. -/
def hexDigit (n : Nat) : Char := if n < 10 then Char.ofNat (48 + n) else Char.ofNat (87 + n)

/-- Model of hex::encode — lowercase, two digits per byte. -/
def hexEncode (bytes : List Nat) : String :=
  String.mk ((bytes.map (fun b => [hexDigit (b / 16), hexDigit (b % 16)])).flatten)

/-- Value of one hex digit character, accepting either case (as hex::decode does). -/
def hexDigitVal (c : Char) : Option Nat :=
  if 48 ≤ c.toNat ∧ c.toNat ≤ 57 then some (c.toNat - 48)
  else if 97 ≤ c.toNat ∧ c.toNat ≤ 102 then some (c.toNat - 87)
  else if 65 ≤ c.toNat ∧ c.toNat ≤ 70 then some (c.toNat - 55)
  else none

def hexDecodeList : List Char → Option (List Nat)
  | [] => some []
  | [_] => none
  | a :: b :: rest => do
    let x ← hexDigitVal a
    let y ← hexDigitVal b
    let r ← hexDecodeList rest
    pure ((16 * x + y) :: r)

/-- Model of hex::decode: fails on odd length or a non-hex character. -/
def hexDecode (s : String) : Option (List Nat) := hexDecodeList s.toList

/-- Model of Rust str::starts_with for string patterns. -/
def strStartsWith (s p : String) : Bool := p.toList.isPrefixOf s.toList

/-- serde_json escaping of one character inside a JSON string. -/
def jsonEscapeChar (c : Char) : List Char :=
  if c = Char.ofNat 34 then [Char.ofNat 92, Char.ofNat 34]
  else if c = Char.ofNat 92 then [Char.ofNat 92, Char.ofNat 92]
  else if c.toNat = 8 then [Char.ofNat 92, 'b']
  else if c.toNat = 9 then [Char.ofNat 92, 't']
  else if c.toNat = 10 then [Char.ofNat 92, 'n']
  else if c.toNat = 12 then [Char.ofNat 92, 'f']
  else if c.toNat = 13 then [Char.ofNat 92, 'r']
  else if c.toNat < 32 then
    [Char.ofNat 92, 'u', '0', '0', hexDigit (c.toNat / 16), hexDigit (c.toNat % 16)]
  else [c]

def jsonEscape (s : String) : String := String.mk ((s.toList.map jsonEscapeChar).flatten)

/-! ## src/chain/block.rs and src/chain/node.rs — data model -/

/-- src/chain/block.rs: struct Block. u64 fields become Nat, i64 becomes Int. -/
structure Block where
  id : Nat
  hash : String
  previous_hash : String
  timestamp : Int
  data : String
  nonce : Nat
deriving DecidableEq

/-- src/chain/block.rs: struct MlBlock — field-for-field identical to Block
but a distinct Rust type. -/
structure MlBlock where
  id : Nat
  hash : String
  previous_hash : String
  timestamp : Int
  data : String
  nonce : Nat
deriving DecidableEq

/-- src/chain/node.rs: GENERAL_DIFFICULTY_PREFIX (renamed here). -/
def GENERAL_DIFFICULTY : String := "00"

/-- src/chain/node.rs: ML_DIFFICULTY_PREFIX (renamed here). -/
def ML_DIFFICULTY : String := "01"

/-- src/chain/node.rs: struct Node — the two chains owned by this node. -/
structure Node where
  blocks : List Block
  ml_blocks : List MlBlock
deriving DecidableEq

/-- src/chain/block.rs: hash_to_binary_representation — pushes the minimal
binary rendering (format "b") of each byte onto an accumulating string. -/
def binDigitsGo : Nat → Nat → List Char
  | 0, _ => []
  | fuel + 1, n =>
    if n < 2 then [if n = 1 then '1' else '0']
    else binDigitsGo fuel (n / 2) ++ [if n % 2 = 1 then '1' else '0']

/-- Minimal (non-zero-padded) binary digit string of a Nat, modelling Rust
format with the b specifier; n + 1 fuel always suffices since the argument
at least halves each step. -/
def binDigits (n : Nat) : List Char := binDigitsGo (n + 1) n

def hash_to_binary_representation (hash : List Nat) : String :=
  hash.foldl (fun res c => res ++ String.mk (binDigits c)) ""

/-- src/chain/node.rs: Node::calculate_hash. serde_json's json! macro builds
a BTreeMap, so Value::to_string renders the keys in alphabetical order
(data, id, nonce, previous_hash, timestamp) with compact separators; the
digest is SHA-256 of the UTF-8 bytes of that rendering. -/
def calculate_hash (id : Nat) (timestamp : Int) (previous_hash data : String) (nonce : Nat) :
    List Nat :=
  sha256 (utf8Bytes
    ("\x7b\"data\":\"" ++ jsonEscape data ++
     "\",\"id\":" ++ toString id ++
     ",\"nonce\":" ++ toString nonce ++
     ",\"previous_hash\":\"" ++ jsonEscape previous_hash ++
     "\",\"timestamp\":" ++ toString timestamp ++ "\x7d"))

/-- src/chain/block.rs: the loop body of mine_general_block, with explicit
fuel standing for the remaining iterations of the unbounded Rust loop. -/
def mine_general_block_go (id : Nat) (timestamp : Int) (previous_hash data : String) :
    Nat → Nat → Option (Nat × String)
  | 0, _ => none
  | fuel + 1, nonce =>
    let hash := calculate_hash id timestamp previous_hash data nonce
    if strStartsWith (hash_to_binary_representation hash) GENERAL_DIFFICULTY then
      some (nonce, hexEncode hash)
    else
      mine_general_block_go id timestamp previous_hash data fuel (nonce + 1)

/-- src/chain/block.rs: mine_general_block — nonce search starting at 0. -/
def mine_general_block (fuel : Nat) (id : Nat) (timestamp : Int)
    (previous_hash data : String) : Option (Nat × String) :=
  mine_general_block_go id timestamp previous_hash data fuel 0

/-- src/chain/block.rs: the loop body of mine_ml_block, fuelled. -/
def mine_ml_block_go (id : Nat) (timestamp : Int) (previous_hash data : String) :
    Nat → Nat → Option (Nat × String)
  | 0, _ => none
  | fuel + 1, nonce =>
    let hash := calculate_hash id timestamp previous_hash data nonce
    if strStartsWith (hash_to_binary_representation hash) ML_DIFFICULTY then
      some (nonce, hexEncode hash)
    else
      mine_ml_block_go id timestamp previous_hash data fuel (nonce + 1)

/-- src/chain/block.rs: mine_ml_block — nonce search starting at 0. -/
def mine_ml_block (fuel : Nat) (id : Nat) (timestamp : Int)
    (previous_hash data : String) : Option (Nat × String) :=
  mine_ml_block_go id timestamp previous_hash data fuel 0

/-- src/chain/node.rs: Node::general_genesis — the pushed genesis block,
parameterized by the Utc::now() timestamp. -/
def general_genesis (timestamp : Int) : Block :=
  { id := 0
    timestamp := timestamp
    previous_hash := "genesis"
    data := "general_genesis!"
    nonce := 2836
    hash := "0000f816a87f806bb0073dcf026a64fb40c946b5abee2573702828694d5b4c43" }

/-- src/chain/node.rs: Node::ml_genesis — the pushed ml genesis block,
parameterized by the Utc::now() timestamp. -/
def ml_genesis (timestamp : Int) : MlBlock :=
  { id := 0
    timestamp := timestamp
    previous_hash := "genesis"
    data := "ml_genesis!"
    nonce := 1836
    hash := "0000f816a87f806bb0073dcf026a64fb40c946b5abee2573702828694d5b4c43" }

/-- src/chain/node.rs: Node::is_general_block_valid. The four checks in
source order; none models the panic of hex::decode(..).expect(..) on a
malformed hash field. -/
def is_general_block_valid (block previous_block : Block) : Option Bool :=
  if block.previous_hash ≠ previous_block.hash then some false
  else
    match hexDecode block.hash with
    | none => none
    | some bytes =>
      if strStartsWith (hash_to_binary_representation bytes) GENERAL_DIFFICULTY then some false
      else if block.id ≠ previous_block.id + 1 then some false
      else if hexEncode (calculate_hash block.id block.timestamp block.previous_hash
          block.data block.nonce) ≠ block.hash then some false
      else some true

/-- src/chain/node.rs: Node::is_ml_block_valid — same checks against the ml
chain's difficulty string. -/
def is_ml_block_valid (block previous_block : MlBlock) : Option Bool :=
  if block.previous_hash ≠ previous_block.hash then some false
  else
    match hexDecode block.hash with
    | none => none
    | some bytes =>
      if strStartsWith (hash_to_binary_representation bytes) ML_DIFFICULTY then some false
      else if block.id ≠ previous_block.id + 1 then some false
      else if hexEncode (calculate_hash block.id block.timestamp block.previous_hash
          block.data block.nonce) ≠ block.hash then some false
      else some true

/-- src/chain/node.rs: Node::is_general_chain_valid — validates every
adjacent pair from index 1 on, returning at the first failing pair. -/
def is_general_chain_valid : List Block → Option Bool
  | [] => some true
  | [_] => some true
  | a :: b :: rest => do
    let ok ← is_general_block_valid b a
    if ok then is_general_chain_valid (b :: rest) else pure false

/-- src/chain/node.rs: Node::is_ml_chain_valid. -/
def is_ml_chain_valid : List MlBlock → Option Bool
  | [] => some true
  | [_] => some true
  | a :: b :: rest => do
    let ok ← is_ml_block_valid b a
    if ok then is_ml_chain_valid (b :: rest) else pure false

/-- src/chain/node.rs: Node::try_add_general_block — none models the
expect panic on an empty chain and the hex-decode panic inside validation;
otherwise the updated chain is returned. -/
def try_add_general_block (blocks : List Block) (block : Block) : Option (List Block) :=
  match blocks.getLast? with
  | none => none
  | some latest_block =>
    match is_general_block_valid block latest_block with
    | none => none
    | some true => some (blocks ++ [block])
    | some false => some blocks

/-- src/chain/node.rs: Node::try_add_ml_block. -/
def try_add_ml_block (ml_blocks : List MlBlock) (block : MlBlock) : Option (List MlBlock) :=
  match ml_blocks.getLast? with
  | none => none
  | some latest_block =>
    match is_ml_block_valid block latest_block with
    | none => none
    | some true => some (ml_blocks ++ [block])
    | some false => some ml_blocks

/-- src/chain/node.rs: Node::choose_general_chain — both candidate chains
are validated first (as in the source); none models the explicit panic when
neither is valid, or a panic inside validation. -/
def choose_general_chain (loc remote : List Block) : Option (List Block) := do
  let is_local_valid ← is_general_chain_valid loc
  let is_remote_valid ← is_general_chain_valid remote
  if is_local_valid && is_remote_valid then
    pure (if remote.length ≤ loc.length then loc else remote)
  else if is_remote_valid && !is_local_valid then pure remote
  else if !is_remote_valid && is_local_valid then pure loc
  else none

/-- src/chain/node.rs: Node::choose_ml_chain. -/
def choose_ml_chain (loc remote : List MlBlock) : Option (List MlBlock) := do
  let is_local_valid ← is_ml_chain_valid loc
  let is_remote_valid ← is_ml_chain_valid remote
  if is_local_valid && is_remote_valid then
    pure (if remote.length ≤ loc.length then loc else remote)
  else if is_remote_valid && !is_local_valid then pure remote
  else if !is_remote_valid && is_local_valid then pure loc
  else none

/-! ## src/chain/p2p.rs — gossip message dispatch -/

/-- src/chain/p2p.rs: struct ChainResponse. -/
structure ChainResponse where
  blocks : List Block
  ml_blocks : List MlBlock
  receiver : String
deriving DecidableEq

/-- src/chain/p2p.rs: struct LocalChainRequest. -/
structure LocalChainRequest where
  from_peer_id : String
deriving DecidableEq

/-- A received floodsub message. serde_json decoding of the raw payload is
abstracted: each field holds the result of the speculative decode attempt
against the corresponding schema, in the order the handler tries them. -/
structure FloodsubMessage where
  source : String
  asChainResponse : Option ChainResponse
  asLocalChainRequest : Option LocalChainRequest
  asBlock : Option Block
  asMlBlock : Option MlBlock
deriving DecidableEq

/-- src/chain/p2p.rs: inject_event for FloodsubEvent::Message — classifies
the payload in source order and returns the updated node state together
with the ChainResponse values emitted on the response channel; none models
a panic reached inside consensus or append. A failed channel send is only
logged in the source, so emission is unconditional here. -/
def inject_event (self_peer_id : String) (app : Node) (msg : FloodsubMessage) :
    Option (Node × List ChainResponse) :=
  match msg.asChainResponse with
  | some resp =>
    if resp.receiver == self_peer_id then do
      let g ← choose_general_chain app.blocks resp.blocks
      let m ← choose_ml_chain app.ml_blocks resp.ml_blocks
      pure ({ blocks := g, ml_blocks := m }, [])
    else pure (app, [])
  | none =>
    match msg.asLocalChainRequest with
    | some resp =>
      if self_peer_id == resp.from_peer_id then
        pure (app, [{ blocks := app.blocks, ml_blocks := app.ml_blocks, receiver := msg.source }])
      else pure (app, [])
    | none =>
      match msg.asBlock with
      | some block => do
        let bs ← try_add_general_block app.blocks block
        pure ({ app with blocks := bs }, [])
      | none =>
        match msg.asMlBlock with
        | some block => do
          let bs ← try_add_ml_block app.ml_blocks block
          pure ({ app with ml_blocks := bs }, [])
        | none => pure (app, [])

/-! ## Specification-side helper definitions -/

/-- Numeric value of a big-endian binary digit string (spec side, used to
state that binDigits really is a binary rendering). -/
def binVal (cs : List Char) : Nat :=
  cs.foldl (fun acc c => 2 * acc + (if c = '1' then 1 else 0)) 0

/-- Replace the previous_hash of the first block of a general chain. -/
def replaceHeadPreviousHash : List Block → String → List Block
  | [], _ => []
  | a :: rest, s => { a with previous_hash := s } :: rest

/-- Replace the previous_hash of the first block of an ml chain. -/
def replaceMlHeadPreviousHash : List MlBlock → String → List MlBlock
  | [], _ => []
  | a :: rest, s => { a with previous_hash := s } :: rest

/-! ## Helper lemmas -/

theorem binVal_append_digit (xs : List Char) (c : Char) :
    binVal (xs ++ [c]) = 2 * binVal xs + (if c = '1' then 1 else 0) := by
  simp [binVal, List.foldl_append]

theorem binDigitsGo_val : ∀ fuel n, n < fuel → binVal (binDigitsGo fuel n) = n := by
  intro fuel
  induction fuel with
  | zero => intro n hn; omega
  | succ f ih =>
    intro n hn
    by_cases h2 : n < 2
    · have hn01 : n = 0 ∨ n = 1 := by omega
      rcases hn01 with hn0 | hn0 <;> subst hn0 <;> simp [binDigitsGo, binVal]
    · have hrec : n / 2 < f := by omega
      have hmod : n % 2 = 1 ∨ n % 2 = 0 := by omega
      simp only [binDigitsGo, if_neg h2, binVal_append_digit, ih (n / 2) hrec]
      rcases hmod with hm | hm <;> simp [hm] <;> omega

theorem binDigitsGo_ne_nil : ∀ fuel n, 0 < fuel → binDigitsGo fuel n ≠ [] := by
  intro fuel n hf
  cases fuel with
  | zero => omega
  | succ f =>
    by_cases h2 : n < 2 <;> simp [binDigitsGo, h2]

theorem binDigitsGo_head : ∀ fuel n, n < fuel → 0 < n →
    (binDigitsGo fuel n).head? = some '1' := by
  intro fuel
  induction fuel with
  | zero => intro n hn; omega
  | succ f ih =>
    intro n hn hpos
    by_cases h2 : n < 2
    · have hn1 : n = 1 := by omega
      subst hn1
      simp [binDigitsGo]
    · have hrec : n / 2 < f := by omega
      have hposr : 0 < n / 2 := by omega
      simp only [binDigitsGo, if_neg h2]
      cases hl : binDigitsGo f (n / 2) with
      | nil => exact absurd hl (binDigitsGo_ne_nil f (n / 2) (by omega))
      | cons a as =>
        have := ih (n / 2) hrec hposr
        rw [hl] at this
        simpa using this

theorem hexDigitVal_hexDigit : ∀ x < 16, hexDigitVal (hexDigit x) = some x := by decide

theorem hexDecodeList_encode : ∀ l : List Nat, (∀ b ∈ l, b < 256) →
    hexDecodeList ((l.map (fun b => [hexDigit (b / 16), hexDigit (b % 16)])).flatten) = some l := by
  intro l
  induction l with
  | nil => intro _; rfl
  | cons b bs ih =>
    intro hb
    have hb256 : b < 256 := hb b (by simp)
    have h1 : hexDigitVal (hexDigit (b / 16)) = some (b / 16) :=
      hexDigitVal_hexDigit (b / 16) (by omega)
    have h2 : hexDigitVal (hexDigit (b % 16)) = some (b % 16) :=
      hexDigitVal_hexDigit (b % 16) (by omega)
    have h3 := ih (fun x hx => hb x (by simp [hx]))
    have hbv : 16 * (b / 16) + b % 16 = b := by omega
    simp [hexDecodeList, h1, h2, h3, hbv]

theorem hexDecode_hexEncode (l : List Nat) (hl : ∀ b ∈ l, b < 256) :
    hexDecode (hexEncode l) = some l := by
  simpa [hexDecode, hexEncode, String.toList] using hexDecodeList_encode l hl

theorem beBytes_lt : ∀ n x, ∀ b ∈ beBytes n x, b < 256 := by
  intro n
  induction n with
  | zero => intro x b hb; simp [beBytes] at hb
  | succ m ih =>
    intro x b hb
    simp only [beBytes, List.mem_append, List.mem_singleton] at hb
    rcases hb with hb | hb
    · exact ih (x / 256) b hb
    · omega

theorem sha256_bytes_lt (msg : List Nat) : ∀ b ∈ sha256 msg, b < 256 := by
  unfold sha256
  generalize (chunks64 (shaPad msg)).foldl compressBlock initH = hv
  induction hv with
  | nil => intro b hb; simp at hb
  | cons w ws ih =>
    intro b hb
    simp only [List.foldr_cons, List.mem_append] at hb
    rcases hb with hb | hb
    · exact beBytes_lt 4 w b hb
    · exact ih b hb

theorem calculate_hash_bytes_lt (id : Nat) (ts : Int) (prev data : String) (nonce : Nat) :
    ∀ b ∈ calculate_hash id ts prev data nonce, b < 256 :=
  sha256_bytes_lt _

/-- Full characterization of a successful run of the general mining loop:
the returned nonce satisfies the difficulty condition, the returned hash is
the hex digest at that nonce, and every earlier nonce from the start of the
search fails the condition. -/
theorem mine_general_go_spec (id : Nat) (ts : Int) (prev data : String) :
    ∀ fuel start n h,
      mine_general_block_go id ts prev data fuel start = some (n, h) →
      start ≤ n ∧
      h = hexEncode (calculate_hash id ts prev data n) ∧
      strStartsWith (hash_to_binary_representation (calculate_hash id ts prev data n))
        GENERAL_DIFFICULTY = true ∧
      ∀ m, start ≤ m → m < n →
        strStartsWith (hash_to_binary_representation (calculate_hash id ts prev data m))
          GENERAL_DIFFICULTY = false := by
  intro fuel
  induction fuel with
  | zero => intro start n h hrun; simp [mine_general_block_go] at hrun
  | succ f ih =>
    intro start n h hrun
    by_cases hc : strStartsWith
        (hash_to_binary_representation (calculate_hash id ts prev data start))
        GENERAL_DIFFICULTY = true
    · rw [mine_general_block_go, if_pos hc] at hrun
      obtain ⟨hn, hh⟩ : start = n ∧ hexEncode (calculate_hash id ts prev data start) = h := by
        simpa using hrun
      subst hn
      exact ⟨le_refl _, hh.symm, hc, fun m hm1 hm2 => absurd (lt_of_le_of_lt hm1 hm2) (lt_irrefl _)⟩
    · rw [mine_general_block_go, if_neg hc] at hrun
      obtain ⟨h1, h2, h3, h4⟩ := ih (start + 1) n h hrun
      refine ⟨by omega, h2, h3, fun m hm1 hm2 => ?_⟩
      rcases Nat.eq_or_lt_of_le hm1 with hm | hm
      · rw [hm] at hc
        simpa using hc
      · exact h4 m (by omega) hm2

/-- Ml analog of mine_general_go_spec. -/
theorem mine_ml_go_spec (id : Nat) (ts : Int) (prev data : String) :
    ∀ fuel start n h,
      mine_ml_block_go id ts prev data fuel start = some (n, h) →
      start ≤ n ∧
      h = hexEncode (calculate_hash id ts prev data n) ∧
      strStartsWith (hash_to_binary_representation (calculate_hash id ts prev data n))
        ML_DIFFICULTY = true ∧
      ∀ m, start ≤ m → m < n →
        strStartsWith (hash_to_binary_representation (calculate_hash id ts prev data m))
          ML_DIFFICULTY = false := by
  intro fuel
  induction fuel with
  | zero => intro start n h hrun; simp [mine_ml_block_go] at hrun
  | succ f ih =>
    intro start n h hrun
    by_cases hc : strStartsWith
        (hash_to_binary_representation (calculate_hash id ts prev data start))
        ML_DIFFICULTY = true
    · rw [mine_ml_block_go, if_pos hc] at hrun
      obtain ⟨hn, hh⟩ : start = n ∧ hexEncode (calculate_hash id ts prev data start) = h := by
        simpa using hrun
      subst hn
      exact ⟨le_refl _, hh.symm, hc, fun m hm1 hm2 => absurd (lt_of_le_of_lt hm1 hm2) (lt_irrefl _)⟩
    · rw [mine_ml_block_go, if_neg hc] at hrun
      obtain ⟨h1, h2, h3, h4⟩ := ih (start + 1) n h hrun
      refine ⟨by omega, h2, h3, fun m hm1 hm2 => ?_⟩
      rcases Nat.eq_or_lt_of_le hm1 with hm | hm
      · rw [hm] at hc
        simpa using hc
      · exact h4 m (by omega) hm2

/-! ## Claim theorems -/

/-- C10: on an empty general (resp. ml) chain, try_add_general_block
(resp. try_add_ml_block) panics while fetching the current tip — modelled
as the none result — instead of rejecting the block or reporting a
recoverable error; a non-empty chain is an unstated precondition. -/
theorem C10_try_add_panics_on_empty_chain :
    ∀ (b : Block) (mb : MlBlock),
      try_add_general_block [] b = none ∧ try_add_ml_block [] mb = none :=
  fun _ _ => ⟨rfl, rfl⟩

/-- C3 counterexample: a single-block chain whose block 0 has previous_hash
"not-genesis" is accepted by is_general_chain_valid (resp.
is_ml_chain_valid), so validity does not force previous_hash "genesis" at
index 0. -/
theorem C3_counterexample :
    is_general_chain_valid
      [{ id := 5, hash := "aa", previous_hash := "not-genesis",
         timestamp := 7, data := "d", nonce := 3 }] = some true ∧
    ({ id := 5, hash := "aa", previous_hash := "not-genesis",
       timestamp := 7, data := "d", nonce := 3 } : Block).previous_hash ≠ "genesis" ∧
    is_ml_chain_valid
      [{ id := 5, hash := "aa", previous_hash := "not-genesis",
         timestamp := 7, data := "d", nonce := 3 }] = some true ∧
    ({ id := 5, hash := "aa", previous_hash := "not-genesis",
       timestamp := 7, data := "d", nonce := 3 } : MlBlock).previous_hash ≠ "genesis" := by
  exact ⟨rfl, by decide, rfl, by decide⟩

/-- C3 amended: chain validation never inspects block 0's previous_hash —
replacing it by an arbitrary string leaves the verdict of
is_general_chain_valid (resp. is_ml_chain_valid) unchanged, so an accepted
chain's block 0 may carry any previous_hash, not only "genesis". -/
theorem C3_amended_validity_ignores_head_previous_hash :
    (∀ (c : List Block) (s : String),
      is_general_chain_valid (replaceHeadPreviousHash c s) = is_general_chain_valid c) ∧
    (∀ (c : List MlBlock) (s : String),
      is_ml_chain_valid (replaceMlHeadPreviousHash c s) = is_ml_chain_valid c) := by
  constructor
  · intro c s
    cases c with
    | nil => rfl
    | cons a rest =>
      cases rest with
      | nil => rfl
      | cons b rest2 => rfl
  · intro c s
    cases c with
    | nil => rfl
    | cons a rest =>
      cases rest with
      | nil => rfl
      | cons b rest2 => rfl

/-- C5: hash_to_binary_representation concatenates, in byte order, each
byte's minimal binary digit string: the per-byte strings evaluate back to
the byte (binVal), a nonzero byte's string starts with the digit 1 (so it
carries no zero padding), and a zero byte contributes exactly the single
character "0", not eight characters. -/
theorem C5_binary_rendering :
    (∀ l : List Nat,
      hash_to_binary_representation l =
        String.join (l.map (fun c => String.mk (binDigits c)))) ∧
    (∀ n : Nat, binVal (binDigits n) = n) ∧
    (∀ n : Nat, (binDigits (n + 1)).head? = some '1') ∧
    binDigits 0 = ['0'] ∧
    hash_to_binary_representation [0] = "0" := by
  refine ⟨?_, ?_, ?_, rfl, by decide⟩
  · intro l
    simp [hash_to_binary_representation, String.join, List.foldl_map]
  · intro n
    exact binDigitsGo_val (n + 1) n (Nat.lt_succ_self n)
  · intro n
    exact binDigitsGo_head (n + 2) (n + 1) (Nat.lt_succ_self _) (Nat.succ_pos n)

/-- C4: whenever the fuelled general (resp. ml) miner returns a
(nonce, hash) pair, the digest at that nonce renders with the chain's
difficulty string at the front, the returned hash is its hex encoding, and
every smaller nonce fails the difficulty condition — the search starts at 0
and increments by 1, so the returned nonce is the least satisfying one. -/
theorem C4_mine_returns_least_satisfying_nonce :
    (∀ (fuel id : Nat) (ts : Int) (prev data : String) (n : Nat) (h : String),
      mine_general_block fuel id ts prev data = some (n, h) →
      strStartsWith (hash_to_binary_representation (calculate_hash id ts prev data n))
        GENERAL_DIFFICULTY = true ∧
      h = hexEncode (calculate_hash id ts prev data n) ∧
      ∀ m < n, strStartsWith (hash_to_binary_representation (calculate_hash id ts prev data m))
        GENERAL_DIFFICULTY = false) ∧
    (∀ (fuel id : Nat) (ts : Int) (prev data : String) (n : Nat) (h : String),
      mine_ml_block fuel id ts prev data = some (n, h) →
      strStartsWith (hash_to_binary_representation (calculate_hash id ts prev data n))
        ML_DIFFICULTY = true ∧
      h = hexEncode (calculate_hash id ts prev data n) ∧
      ∀ m < n, strStartsWith (hash_to_binary_representation (calculate_hash id ts prev data m))
        ML_DIFFICULTY = false) := by
  constructor
  · intro fuel id ts prev data n h hm
    obtain ⟨-, h2, h3, h4⟩ := mine_general_go_spec id ts prev data fuel 0 n h hm
    exact ⟨h3, h2, fun m hmn => h4 m (Nat.zero_le m) hmn⟩
  · intro fuel id ts prev data n h hm
    obtain ⟨-, h2, h3, h4⟩ := mine_ml_go_spec id ts prev data fuel 0 n h hm
    exact ⟨h3, h2, fun m hmn => h4 m (Nat.zero_le m) hmn⟩

/-- C4 witness: concrete mining runs on both chains succeed at nonce 0 and
the mined digests satisfy their difficulty conditions. -/
theorem C4_mine_witness :
    mine_general_block 1 1 1700000000
      "0000f816a87f806bb0073dcf026a64fb40c946b5abee2573702828694d5b4c43" "g28755" =
      some (0, "0000180b7b47dd9f6dd7f0aae2ddb0a6c271712214897a4b0e257df83a9094b3") ∧
    strStartsWith (hash_to_binary_representation (calculate_hash 1 1700000000
      "0000f816a87f806bb0073dcf026a64fb40c946b5abee2573702828694d5b4c43" "g28755" 0))
      GENERAL_DIFFICULTY = true ∧
    mine_ml_block 1 1 1700000000
      "0000f816a87f806bb0073dcf026a64fb40c946b5abee2573702828694d5b4c43" "m93" =
      some (0, "009990d9cc4ed4f007d3fff385de4ff58397493ad5ae987fbf0409021f7c824d") ∧
    strStartsWith (hash_to_binary_representation (calculate_hash 1 1700000000
      "0000f816a87f806bb0073dcf026a64fb40c946b5abee2573702828694d5b4c43" "m93" 0))
      ML_DIFFICULTY = true := by
  have hg : mine_general_block 1 1 1700000000
      "0000f816a87f806bb0073dcf026a64fb40c946b5abee2573702828694d5b4c43" "g28755" =
      some (0, "0000180b7b47dd9f6dd7f0aae2ddb0a6c271712214897a4b0e257df83a9094b3") := by
    decide
  have hm : mine_ml_block 1 1 1700000000
      "0000f816a87f806bb0073dcf026a64fb40c946b5abee2573702828694d5b4c43" "m93" =
      some (0, "009990d9cc4ed4f007d3fff385de4ff58397493ad5ae987fbf0409021f7c824d") := by
    decide
  refine ⟨hg, ?_, hm, ?_⟩
  · exact (C4_mine_returns_least_satisfying_nonce.1 1 1 1700000000
      "0000f816a87f806bb0073dcf026a64fb40c946b5abee2573702828694d5b4c43" "g28755" 0
      "0000180b7b47dd9f6dd7f0aae2ddb0a6c271712214897a4b0e257df83a9094b3" hg).1
  · exact (C4_mine_returns_least_satisfying_nonce.2 1 1 1700000000
      "0000f816a87f806bb0073dcf026a64fb40c946b5abee2573702828694d5b4c43" "m93" 0
      "009990d9cc4ed4f007d3fff385de4ff58397493ad5ae987fbf0409021f7c824d" hm).1

/-- C1: the code contradicts the claim — a block freshly produced by the
miner with id 1 and previous_hash equal to the genesis block's hash is
always REJECTED (some false) by is_general_block_valid (resp.
is_ml_block_valid) against the genesis block, because the validator's
difficulty check fires exactly when the mined digest's rendering starts
with the difficulty string. -/
theorem C1_freshly_mined_block_rejected :
    (∀ (fuel : Nat) (gts ts : Int) (data : String) (n : Nat) (h : String),
      mine_general_block fuel 1 ts (general_genesis gts).hash data = some (n, h) →
      is_general_block_valid
        { id := 1, hash := h, previous_hash := (general_genesis gts).hash,
          timestamp := ts, data := data, nonce := n }
        (general_genesis gts) = some false) ∧
    (∀ (fuel : Nat) (gts ts : Int) (data : String) (n : Nat) (h : String),
      mine_ml_block fuel 1 ts (ml_genesis gts).hash data = some (n, h) →
      is_ml_block_valid
        { id := 1, hash := h, previous_hash := (ml_genesis gts).hash,
          timestamp := ts, data := data, nonce := n }
        (ml_genesis gts) = some false) := by
  constructor
  · intro fuel gts ts data n h hm
    obtain ⟨-, h2, h3, -⟩ :=
      mine_general_go_spec 1 ts (general_genesis gts).hash data fuel 0 n h hm
    subst h2
    have hdec :
        hexDecode (hexEncode (calculate_hash 1 ts (general_genesis gts).hash data n)) =
          some (calculate_hash 1 ts (general_genesis gts).hash data n) :=
      hexDecode_hexEncode _ (calculate_hash_bytes_lt _ _ _ _ _)
    simp [is_general_block_valid, hdec, h3]
  · intro fuel gts ts data n h hm
    obtain ⟨-, h2, h3, -⟩ :=
      mine_ml_go_spec 1 ts (ml_genesis gts).hash data fuel 0 n h hm
    subst h2
    have hdec :
        hexDecode (hexEncode (calculate_hash 1 ts (ml_genesis gts).hash data n)) =
          some (calculate_hash 1 ts (ml_genesis gts).hash data n) :=
      hexDecode_hexEncode _ (calculate_hash_bytes_lt _ _ _ _ _)
    simp [is_ml_block_valid, hdec, h3]

/-- C1 witness: concrete freshly mined blocks on both chains are rejected
by validation against their genesis block. -/
theorem C1_witness :
    is_general_block_valid
      { id := 1, hash := "0000180b7b47dd9f6dd7f0aae2ddb0a6c271712214897a4b0e257df83a9094b3",
        previous_hash := "0000f816a87f806bb0073dcf026a64fb40c946b5abee2573702828694d5b4c43",
        timestamp := 1700000000, data := "g28755", nonce := 0 }
      (general_genesis 42) = some false ∧
    is_ml_block_valid
      { id := 1, hash := "009990d9cc4ed4f007d3fff385de4ff58397493ad5ae987fbf0409021f7c824d",
        previous_hash := "0000f816a87f806bb0073dcf026a64fb40c946b5abee2573702828694d5b4c43",
        timestamp := 1700000000, data := "m93", nonce := 0 }
      (ml_genesis 42) = some false := by
  have hg : mine_general_block 1 1 1700000000 (general_genesis 42).hash "g28755" =
      some (0, "0000180b7b47dd9f6dd7f0aae2ddb0a6c271712214897a4b0e257df83a9094b3") := by
    decide
  have hm : mine_ml_block 1 1 1700000000 (ml_genesis 42).hash "m93" =
      some (0, "009990d9cc4ed4f007d3fff385de4ff58397493ad5ae987fbf0409021f7c824d") := by
    decide
  exact ⟨C1_freshly_mined_block_rejected.1 1 42 1700000000 "g28755" 0 _ hg,
         C1_freshly_mined_block_rejected.2 1 42 1700000000 "m93" 0 _ hm⟩

/-- C2: the code contradicts the claim — validation accepts blocks whose
digest rendering does NOT carry the chain's difficulty string: a concrete
block whose rendering starts with neither "00" nor "01" passes
is_general_block_valid (resp. is_ml_block_valid) with some true, so
validation does not accept only difficulty-satisfying blocks (its
difficulty check is inverted, rejecting exactly the satisfying ones). -/
theorem C2_validation_accepts_prefix_violating_block :
    is_general_block_valid
      { id := 1, hash := "60c4ceefa292a1362424ce006cd1c1cc86b5f411ac272176b3020cba7daf389d",
        previous_hash := "0000f816a87f806bb0073dcf026a64fb40c946b5abee2573702828694d5b4c43",
        timestamp := 1700000000, data := "x", nonce := 0 }
      (general_genesis 42) = some true ∧
    strStartsWith (hash_to_binary_representation
      ((hexDecode "60c4ceefa292a1362424ce006cd1c1cc86b5f411ac272176b3020cba7daf389d").getD []))
      GENERAL_DIFFICULTY = false ∧
    is_ml_block_valid
      { id := 1, hash := "adc9c23272c18d8c277eb459355f35ea36e12462b49ed656cb5beb032109d6f5",
        previous_hash := "0000f816a87f806bb0073dcf026a64fb40c946b5abee2573702828694d5b4c43",
        timestamp := 1700000000, data := "y", nonce := 0 }
      (ml_genesis 42) = some true ∧
    strStartsWith (hash_to_binary_representation
      ((hexDecode "adc9c23272c18d8c277eb459355f35ea36e12462b49ed656cb5beb032109d6f5").getD []))
      ML_DIFFICULTY = false := by
  exact ⟨by decide, by decide, by decide, by decide⟩

/-- C6: the fork-choice rule, as a pure function of the two chains: when
both candidates validate, the longer wins with ties going to the local
chain; when exactly one validates, that one wins; when neither does, the
code panics (none) and returns no chain. -/
theorem C6_choose_chain_fork_choice :
    (∀ l r : List Block, is_general_chain_valid l = some true →
      is_general_chain_valid r = some true →
      choose_general_chain l r = some (if r.length ≤ l.length then l else r)) ∧
    (∀ l r : List Block, is_general_chain_valid l = some true →
      is_general_chain_valid r = some false →
      choose_general_chain l r = some l) ∧
    (∀ l r : List Block, is_general_chain_valid l = some false →
      is_general_chain_valid r = some true →
      choose_general_chain l r = some r) ∧
    (∀ l r : List Block, is_general_chain_valid l = some false →
      is_general_chain_valid r = some false →
      choose_general_chain l r = none) ∧
    (∀ l r : List MlBlock, is_ml_chain_valid l = some true →
      is_ml_chain_valid r = some true →
      choose_ml_chain l r = some (if r.length ≤ l.length then l else r)) ∧
    (∀ l r : List MlBlock, is_ml_chain_valid l = some true →
      is_ml_chain_valid r = some false →
      choose_ml_chain l r = some l) ∧
    (∀ l r : List MlBlock, is_ml_chain_valid l = some false →
      is_ml_chain_valid r = some true →
      choose_ml_chain l r = some r) ∧
    (∀ l r : List MlBlock, is_ml_chain_valid l = some false →
      is_ml_chain_valid r = some false →
      choose_ml_chain l r = none) := by
  refine ⟨?_, ?_, ?_, ?_, ?_, ?_, ?_, ?_⟩ <;>
    intro l r hl hr <;>
    simp [choose_general_chain, choose_ml_chain, hl, hr]

/-- C6 witness: the fork-choice rule evaluated on concrete valid and
invalid chains of each kind, one case per branch. -/
theorem C6_choose_chain_witness :
    choose_general_chain [general_genesis 42] [general_genesis 42] =
      some [general_genesis 42] ∧
    choose_general_chain [general_genesis 42]
      [general_genesis 42,
       { id := 1, hash := "60c4ceefa292a1362424ce006cd1c1cc86b5f411ac272176b3020cba7daf389d",
         previous_hash := "0000f816a87f806bb0073dcf026a64fb40c946b5abee2573702828694d5b4c43",
         timestamp := 1700000000, data := "x", nonce := 0 }] =
      some [general_genesis 42,
       { id := 1, hash := "60c4ceefa292a1362424ce006cd1c1cc86b5f411ac272176b3020cba7daf389d",
         previous_hash := "0000f816a87f806bb0073dcf026a64fb40c946b5abee2573702828694d5b4c43",
         timestamp := 1700000000, data := "x", nonce := 0 }] ∧
    choose_general_chain [general_genesis 42]
      [general_genesis 42,
       { id := 1, hash := "bb", previous_hash := "mismatch",
         timestamp := 0, data := "d", nonce := 0 }] = some [general_genesis 42] ∧
    choose_general_chain
      [general_genesis 42,
       { id := 1, hash := "bb", previous_hash := "mismatch",
         timestamp := 0, data := "d", nonce := 0 }] [general_genesis 42] =
      some [general_genesis 42] ∧
    choose_general_chain
      [general_genesis 42,
       { id := 1, hash := "bb", previous_hash := "mismatch",
         timestamp := 0, data := "d", nonce := 0 }]
      [general_genesis 42,
       { id := 1, hash := "bb", previous_hash := "mismatch",
         timestamp := 0, data := "d", nonce := 0 }] = none ∧
    choose_ml_chain [ml_genesis 42]
      [ml_genesis 42,
       { id := 1, hash := "adc9c23272c18d8c277eb459355f35ea36e12462b49ed656cb5beb032109d6f5",
         previous_hash := "0000f816a87f806bb0073dcf026a64fb40c946b5abee2573702828694d5b4c43",
         timestamp := 1700000000, data := "y", nonce := 0 }] =
      some [ml_genesis 42,
       { id := 1, hash := "adc9c23272c18d8c277eb459355f35ea36e12462b49ed656cb5beb032109d6f5",
         previous_hash := "0000f816a87f806bb0073dcf026a64fb40c946b5abee2573702828694d5b4c43",
         timestamp := 1700000000, data := "y", nonce := 0 }] ∧
    choose_ml_chain [ml_genesis 42]
      [ml_genesis 42,
       { id := 1, hash := "bb", previous_hash := "mismatch",
         timestamp := 0, data := "d", nonce := 0 }] = some [ml_genesis 42] ∧
    choose_ml_chain
      [ml_genesis 42,
       { id := 1, hash := "bb", previous_hash := "mismatch",
         timestamp := 0, data := "d", nonce := 0 }]
      [ml_genesis 42,
       { id := 1, hash := "bb", previous_hash := "mismatch",
         timestamp := 0, data := "d", nonce := 0 }] = none := by
  obtain ⟨hgboth, hglf, hgrf, hgnone, hmboth, hmlf, hmrf, hmnone⟩ :=
    C6_choose_chain_fork_choice
  refine ⟨?_, ?_, ?_, ?_, ?_, ?_, ?_, ?_⟩
  · have h := hgboth [general_genesis 42] [general_genesis 42] (by decide) (by decide)
    simpa using h
  · have h := hgboth [general_genesis 42]
      [general_genesis 42,
       { id := 1, hash := "60c4ceefa292a1362424ce006cd1c1cc86b5f411ac272176b3020cba7daf389d",
         previous_hash := "0000f816a87f806bb0073dcf026a64fb40c946b5abee2573702828694d5b4c43",
         timestamp := 1700000000, data := "x", nonce := 0 }] (by decide) (by decide)
    simpa using h
  · exact hglf [general_genesis 42]
      [general_genesis 42,
       { id := 1, hash := "bb", previous_hash := "mismatch",
         timestamp := 0, data := "d", nonce := 0 }] (by decide) (by decide)
  · exact hgrf
      [general_genesis 42,
       { id := 1, hash := "bb", previous_hash := "mismatch",
         timestamp := 0, data := "d", nonce := 0 }] [general_genesis 42]
      (by decide) (by decide)
  · exact hgnone
      [general_genesis 42,
       { id := 1, hash := "bb", previous_hash := "mismatch",
         timestamp := 0, data := "d", nonce := 0 }]
      [general_genesis 42,
       { id := 1, hash := "bb", previous_hash := "mismatch",
         timestamp := 0, data := "d", nonce := 0 }] (by decide) (by decide)
  · have h := hmboth [ml_genesis 42]
      [ml_genesis 42,
       { id := 1, hash := "adc9c23272c18d8c277eb459355f35ea36e12462b49ed656cb5beb032109d6f5",
         previous_hash := "0000f816a87f806bb0073dcf026a64fb40c946b5abee2573702828694d5b4c43",
         timestamp := 1700000000, data := "y", nonce := 0 }] (by decide) (by decide)
    simpa using h
  · exact hmlf [ml_genesis 42]
      [ml_genesis 42,
       { id := 1, hash := "bb", previous_hash := "mismatch",
         timestamp := 0, data := "d", nonce := 0 }] (by decide) (by decide)
  · exact hmnone
      [ml_genesis 42,
       { id := 1, hash := "bb", previous_hash := "mismatch",
         timestamp := 0, data := "d", nonce := 0 }]
      [ml_genesis 42,
       { id := 1, hash := "bb", previous_hash := "mismatch",
         timestamp := 0, data := "d", nonce := 0 }] (by decide) (by decide)

/-- C7: on a non-empty chain (tip given by getLast?), try_add_general_block
(resp. try_add_ml_block) leaves the chain unchanged when the candidate
fails validation against the tip, and appends exactly the candidate —
growing the length by exactly 1 — when it passes. -/
theorem C7_try_add_append_or_unchanged :
    (∀ (blocks : List Block) (b latest : Block),
      blocks.getLast? = some latest →
      (is_general_block_valid b latest = some false →
        try_add_general_block blocks b = some blocks) ∧
      (is_general_block_valid b latest = some true →
        try_add_general_block blocks b = some (blocks ++ [b]) ∧
        (blocks ++ [b]).length = blocks.length + 1)) ∧
    (∀ (blocks : List MlBlock) (b latest : MlBlock),
      blocks.getLast? = some latest →
      (is_ml_block_valid b latest = some false →
        try_add_ml_block blocks b = some blocks) ∧
      (is_ml_block_valid b latest = some true →
        try_add_ml_block blocks b = some (blocks ++ [b]) ∧
        (blocks ++ [b]).length = blocks.length + 1)) := by
  constructor
  · intro blocks b latest hlast
    constructor
    · intro hv
      simp [try_add_general_block, hlast, hv]
    · intro hv
      refine ⟨by simp [try_add_general_block, hlast, hv], by simp⟩
  · intro blocks b latest hlast
    constructor
    · intro hv
      simp [try_add_ml_block, hlast, hv]
    · intro hv
      refine ⟨by simp [try_add_ml_block, hlast, hv], by simp⟩

/-- C7 witness: a concrete invalid candidate leaves each chain unchanged
and a concrete valid candidate is appended at the end. -/
theorem C7_try_add_witness :
    try_add_general_block [general_genesis 42]
      { id := 1, hash := "bb", previous_hash := "mismatch",
        timestamp := 0, data := "d", nonce := 0 } = some [general_genesis 42] ∧
    try_add_general_block [general_genesis 42]
      { id := 1, hash := "60c4ceefa292a1362424ce006cd1c1cc86b5f411ac272176b3020cba7daf389d",
        previous_hash := "0000f816a87f806bb0073dcf026a64fb40c946b5abee2573702828694d5b4c43",
        timestamp := 1700000000, data := "x", nonce := 0 } =
      some [general_genesis 42,
        { id := 1, hash := "60c4ceefa292a1362424ce006cd1c1cc86b5f411ac272176b3020cba7daf389d",
          previous_hash := "0000f816a87f806bb0073dcf026a64fb40c946b5abee2573702828694d5b4c43",
          timestamp := 1700000000, data := "x", nonce := 0 }] ∧
    try_add_ml_block [ml_genesis 42]
      { id := 1, hash := "bb", previous_hash := "mismatch",
        timestamp := 0, data := "d", nonce := 0 } = some [ml_genesis 42] ∧
    try_add_ml_block [ml_genesis 42]
      { id := 1, hash := "adc9c23272c18d8c277eb459355f35ea36e12462b49ed656cb5beb032109d6f5",
        previous_hash := "0000f816a87f806bb0073dcf026a64fb40c946b5abee2573702828694d5b4c43",
        timestamp := 1700000000, data := "y", nonce := 0 } =
      some [ml_genesis 42,
        { id := 1, hash := "adc9c23272c18d8c277eb459355f35ea36e12462b49ed656cb5beb032109d6f5",
          previous_hash := "0000f816a87f806bb0073dcf026a64fb40c946b5abee2573702828694d5b4c43",
          timestamp := 1700000000, data := "y", nonce := 0 }] := by
  obtain ⟨hgen, hml⟩ := C7_try_add_append_or_unchanged
  refine ⟨?_, ?_, ?_, ?_⟩
  · exact (hgen [general_genesis 42] _ (general_genesis 42) (by decide)).1 (by decide)
  · exact ((hgen [general_genesis 42] _ (general_genesis 42) (by decide)).2 (by decide)).1
  · exact (hml [ml_genesis 42] _ (ml_genesis 42) (by decide)).1 (by decide)
  · exact ((hml [ml_genesis 42] _ (ml_genesis 42) (by decide)).2 (by decide)).1

/-- C8: the code contradicts the claim — a block whose hash field is not
well-formed hex (here "zz") and whose previous_hash matches makes
validation panic (the none result models the expect on hex::decode)
instead of reporting a validation failure. -/
theorem C8_malformed_hex_aborts_validation :
    is_general_block_valid
      { id := 1, hash := "zz",
        previous_hash := "0000f816a87f806bb0073dcf026a64fb40c946b5abee2573702828694d5b4c43",
        timestamp := 0, data := "d", nonce := 0 } (general_genesis 42) = none ∧
    is_ml_block_valid
      { id := 1, hash := "zz",
        previous_hash := "0000f816a87f806bb0073dcf026a64fb40c946b5abee2573702828694d5b4c43",
        timestamp := 0, data := "d", nonce := 0 } (ml_genesis 42) = none := by
  exact ⟨by decide, by decide⟩

/-- C9: when the payload fails to decode as a ChainResponse and decodes as
a LocalChainRequest, the handler emits exactly one ChainResponse — holding
both current chains and addressed to the message's source — iff the
request's from_peer_id equals this node's peer id, emits nothing otherwise,
and never changes the chain state. -/
theorem C9_local_chain_request_emission :
    ∀ (self_peer_id : String) (app : Node) (msg : FloodsubMessage) (req : LocalChainRequest),
      msg.asChainResponse = none →
      msg.asLocalChainRequest = some req →
      inject_event self_peer_id app msg =
        some (app,
          if self_peer_id == req.from_peer_id then
            [{ blocks := app.blocks, ml_blocks := app.ml_blocks, receiver := msg.source }]
          else []) := by
  intro self_peer_id app msg req h1 h2
  simp only [inject_event, h1, h2]
  cases hb : (self_peer_id == req.from_peer_id) <;> simp [hb]

/-- C9 witness: a request addressed to peer X received by peer X yields
exactly one emitted response addressed to the message source, and the same
request received by peer Y yields no emission; the state is unchanged in
both cases. -/
theorem C9_local_chain_request_witness :
    inject_event "peerX" { blocks := [general_genesis 42], ml_blocks := [ml_genesis 42] }
      { source := "peerS", asChainResponse := none,
        asLocalChainRequest := some { from_peer_id := "peerX" },
        asBlock := none, asMlBlock := none } =
      some ({ blocks := [general_genesis 42], ml_blocks := [ml_genesis 42] },
        [{ blocks := [general_genesis 42], ml_blocks := [ml_genesis 42],
           receiver := "peerS" }]) ∧
    inject_event "peerY" { blocks := [general_genesis 42], ml_blocks := [ml_genesis 42] }
      { source := "peerS", asChainResponse := none,
        asLocalChainRequest := some { from_peer_id := "peerX" },
        asBlock := none, asMlBlock := none } =
      some ({ blocks := [general_genesis 42], ml_blocks := [ml_genesis 42] }, []) := by
  constructor
  · have h := C9_local_chain_request_emission "peerX"
      { blocks := [general_genesis 42], ml_blocks := [ml_genesis 42] }
      { source := "peerS", asChainResponse := none,
        asLocalChainRequest := some { from_peer_id := "peerX" },
        asBlock := none, asMlBlock := none } { from_peer_id := "peerX" } rfl rfl
    rw [h]
    decide
  · have h := C9_local_chain_request_emission "peerY"
      { blocks := [general_genesis 42], ml_blocks := [ml_genesis 42] }
      { source := "peerS", asChainResponse := none,
        asLocalChainRequest := some { from_peer_id := "peerX" },
        asBlock := none, asMlBlock := none } { from_peer_id := "peerX" } rfl rfl
    rw [h]
    decide

end RustyDag
